import Mathlib

/-!
# Verification of the Cattle Methane Reduction Tool (src/app.py)

Shallow embedding of the calculation core of `src/app.py`.  All Python
floats are modelled as exact rationals (`ℚ`), matching the spec's
"all arithmetic is exact real-number computation"; Python `int` is `ℤ`.
Python `dict` lookups (which raise `KeyError` on a missing key) are
modelled as association-list lookups returning `Except CalcError`,
with a missing key surfaced as `configurationError` per the spec's
error taxonomy.  The Streamlit UI boundary check
(`if n_animals <= 0: st.warning(...); st.stop()`) is modelled as a
wrapper returning `invalidInput` before any computation.
-/

namespace CattleMethane

/-- Error taxonomy from the spec (section 7): `InvalidInputError` for the
UI-boundary herd-size rejection, `ConfigurationError` for a lookup key
absent from a configuration table (Python `KeyError`). -/
inductive CalcError where
  | invalidInput
  | configurationError
deriving DecidableEq, Repr

/-- `EMISSION_FACTORS_KG_PER_HEAD_YR` from app.py lines 77-81: mapping
animal category → kg CH4 per head per year, in insertion order. -/
def EMISSION_FACTORS_KG_PER_HEAD_YR : List (String × ℚ) :=
  [("dairy", 72.0), ("beef", 60.0), ("buffalo", 90.0)]

/-- `DIET_REDUCTION` from app.py lines 83-87. -/
def DIET_REDUCTION : List (String × ℚ) :=
  [("conventional", 0.00), ("improved", 0.10), ("high-quality", 0.15)]

/-- `ADDITIVE_REDUCTION` from app.py lines 89-94. -/
def ADDITIVE_REDUCTION : List (String × ℚ) :=
  [("none", 0.00), ("seaweed", 0.30), ("3-NOP", 0.31), ("oils", 0.10)]

/-- `GWP_CH4` from app.py line 97. -/
def GWP_CH4 : ℚ := 28.0

/-- `TREE_T_CO2E_PER_YEAR` from app.py line 98. -/
def TREE_T_CO2E_PER_YEAR : ℚ := 0.021

/-- `CAR_T_CO2E_PER_YEAR` from app.py line 99. -/
def CAR_T_CO2E_PER_YEAR : ℚ := 4.6

/-- Python dict subscript `table[key]`: raises `KeyError` on a missing
key, modelled as `configurationError`. -/
def dictGet (table : List (String × ℚ)) (key : String) : Except CalcError ℚ :=
  match table.lookup key with
  | some v => Except.ok v
  | none => Except.error CalcError.configurationError

/-- `combined_reduction_fraction` from app.py lines 108-110:
combine reductions multiplicatively to avoid double counting. -/
def combined_reduction_fraction (f_diet f_add : ℚ) : ℚ :=
  1.0 - (1.0 - f_diet) * (1.0 - f_add)

/-- `baseline_tCH4` from app.py lines 112-114: baseline methane in
tonnes CH4 per year for the herd. -/
def baseline_tCH4 (EF_kg_per_head_yr : ℚ) (n_animals : ℤ) : ℚ :=
  (EF_kg_per_head_yr * n_animals) / 1000.0

/-- The dict returned by `compute_results` (app.py lines 140-153),
as an immutable record. -/
structure Results where
  ef : ℚ
  f_diet : ℚ
  f_add : ℚ
  f_total : ℚ
  baseline_tCH4 : ℚ
  baseline_tCO2e : ℚ
  baseline_cars : ℚ
  baseline_trees : ℚ
  reduced_tCH4 : ℚ
  avoided_tCO2e : ℚ
  cars_removed : ℚ
  trees_equivalent : ℚ
deriving DecidableEq, Repr

/-- `compute_results` from app.py lines 116-153: compute baseline,
reductions, and equivalences.  The three dict subscripts are the only
fallible steps; they are matched in program order so the first missing
key aborts the computation, exactly as Python's `KeyError` would. -/
def compute_results (n_animals : ℤ) (cattle_type diet additive : String) :
    Except CalcError Results :=
  match EMISSION_FACTORS_KG_PER_HEAD_YR.lookup cattle_type with
  | none => Except.error CalcError.configurationError
  | some ef =>
    match DIET_REDUCTION.lookup diet with
    | none => Except.error CalcError.configurationError
    | some f_diet =>
      match ADDITIVE_REDUCTION.lookup additive with
      | none => Except.error CalcError.configurationError
      | some f_add =>
        let base_tCH4 := baseline_tCH4 ef n_animals
        let total_frac := combined_reduction_fraction f_diet f_add
        let reduced_tCH4 := base_tCH4 * total_frac
        let avoided_tCO2e := reduced_tCH4 * GWP_CH4
        let cars := if CAR_T_CO2E_PER_YEAR > 0 then avoided_tCO2e / CAR_T_CO2E_PER_YEAR else 0.0
        let trees := if TREE_T_CO2E_PER_YEAR > 0 then avoided_tCO2e / TREE_T_CO2E_PER_YEAR else 0.0
        let base_tCO2e := base_tCH4 * GWP_CH4
        let base_cars := if CAR_T_CO2E_PER_YEAR > 0 then base_tCO2e / CAR_T_CO2E_PER_YEAR else 0.0
        let base_trees := if TREE_T_CO2E_PER_YEAR > 0 then base_tCO2e / TREE_T_CO2E_PER_YEAR else 0.0
        Except.ok {
          ef := ef
          f_diet := f_diet
          f_add := f_add
          f_total := total_frac
          baseline_tCH4 := base_tCH4
          baseline_tCO2e := base_tCO2e
          baseline_cars := base_cars
          baseline_trees := base_trees
          reduced_tCH4 := reduced_tCH4
          avoided_tCO2e := avoided_tCO2e
          cars_removed := cars
          trees_equivalent := trees }

/-- One row of the what-if list (app.py lines 172-181). -/
structure WhatIfRow where
  additive : String
  f_total : ℚ
  tCH4_reduced : ℚ
  tCO2e_avoided : ℚ
  cars_removed : ℚ
  trees_equivalent : ℚ
deriving DecidableEq, Repr

/-- Row construction in the loop body of `compute_what_if_rows`
(app.py lines 167-181).  Note: unlike `compute_results`, the loop
divides by the car/tree constants without a positivity guard. -/
def mkWhatIfRow (base_tCH4 f_diet : ℚ) (add_name : String) (f_add : ℚ) : WhatIfRow :=
  let f_total := combined_reduction_fraction f_diet f_add
  let tCH4_red := base_tCH4 * f_total
  let tCO2e := tCH4_red * GWP_CH4
  { additive := add_name
    f_total := f_total
    tCH4_reduced := tCH4_red
    tCO2e_avoided := tCO2e
    cars_removed := tCO2e / CAR_T_CO2E_PER_YEAR
    trees_equivalent := tCO2e / TREE_T_CO2E_PER_YEAR }

/-- Stable insertion step for a descending sort: an element moves past
only elements with a strictly larger key, so elements with equal keys
keep their original relative order.  This is the semantics of Python's
`list.sort(key=..., reverse=True)` (a stable sort, app.py line 183). -/
def insertDescByAvoided (x : WhatIfRow) : List WhatIfRow → List WhatIfRow
  | [] => [x]
  | y :: ys =>
    if x.tCO2e_avoided < y.tCO2e_avoided then y :: insertDescByAvoided x ys
    else x :: y :: ys

/-- `rows.sort(key=lambda r: r["tCO2e_avoided"], reverse=True)`
(app.py line 183): stable descending sort by avoided CO2e. -/
def sortByAvoidedDesc (l : List WhatIfRow) : List WhatIfRow :=
  l.foldr insertDescByAvoided []

/-- `compute_what_if_rows` (app.py lines 155-184), with the additive
table passed explicitly: the Python function reads the module-level
global `ADDITIVE_REDUCTION`, which the spec treats as externally
supplied configuration; parametrising over it lets the configuration
scenarios (e.g. a table reduced to only "none") be stated. -/
def compute_what_if_rows_with (addTable : List (String × ℚ))
    (n_animals : ℤ) (cattle_type diet : String) :
    Except CalcError (List WhatIfRow) :=
  match EMISSION_FACTORS_KG_PER_HEAD_YR.lookup cattle_type with
  | none => Except.error CalcError.configurationError
  | some ef =>
    let base_tCH4 := baseline_tCH4 ef n_animals
    match DIET_REDUCTION.lookup diet with
    | none => Except.error CalcError.configurationError
    | some f_diet =>
      let rows := (addTable.filter (fun p => p.1 ≠ "none")).map
        (fun p => mkWhatIfRow base_tCH4 f_diet p.1 p.2)
      Except.ok (sortByAvoidedDesc rows)

/-- `compute_what_if_rows` with the module-level additive table of
app.py lines 89-94. -/
def compute_what_if_rows (n_animals : ℤ) (cattle_type diet : String) :
    Except CalcError (List WhatIfRow) :=
  compute_what_if_rows_with ADDITIVE_REDUCTION n_animals cattle_type diet

/-- The submit handler's validate-and-compute path (app.py lines
209-214): a non-positive herd size is rejected with a warning and
`st.stop()` before `compute_results` is invoked; the rejection is
modelled as `invalidInput` per the spec's error taxonomy. -/
def app_submit (n_animals : ℤ) (cattle_type diet additive : String) :
    Except CalcError Results :=
  if n_animals ≤ 0 then Except.error CalcError.invalidInput
  else compute_results n_animals cattle_type diet additive

/-- Modelled from the spec: the weight-based Tier-2 emission-factor
derivation (spec section 4.1, steps 1-5) is not present in
`src/app.py` (the repository's other UI variants carry it); faithful
to the spec's words: dry-matter intake = weight × diet intake
fraction; gross energy = intake × 18.45 MJ/kg; methane energy =
gross energy × diet methane-conversion percentage / 100; daily
methane = methane energy / 55.65 MJ/kg; annual factor = daily × 365. -/
def tier2_emission_factor (weight intake_frac ym_pct : ℚ) : ℚ :=
  let dry_matter_intake := weight * intake_frac
  let gross_energy := dry_matter_intake * 18.45
  let methane_energy := gross_energy * (ym_pct / 100)
  let daily_methane := methane_energy / 55.65
  daily_methane * 365

/-- Modelled from the spec: the emission-factor resolver (spec
section 4.1), absent from `src/app.py`: if a weight is present and
positive the Tier-2 factor supersedes the static table; otherwise the
static table lookup is used. -/
def resolve_emission_factor (weight : Option ℚ) (intake_frac ym_pct : ℚ)
    (cattle_type : String) : Except CalcError ℚ :=
  match weight with
  | some w =>
    if 0 < w then Except.ok (tier2_emission_factor w intake_frac ym_pct)
    else dictGet EMISSION_FACTORS_KG_PER_HEAD_YR cattle_type
  | none => dictGet EMISSION_FACTORS_KG_PER_HEAD_YR cattle_type

/-! ## Theorems -/

/-- C1: For all diet and additive reduction fractions `f_d, f_a` in
[0, 1), the reduction combiner returns `1 - (1 - f_d) * (1 - f_a)`;
this value lies in `[max f_d f_a, 1)`, equals `f_d` exactly when
`f_a = 0` (and symmetrically), and the combiner is commutative. -/
theorem combined_reduction_fraction_spec (f_d f_a : ℚ)
    (hd0 : 0 ≤ f_d) (hd1 : f_d < 1) (ha0 : 0 ≤ f_a) (ha1 : f_a < 1) :
    combined_reduction_fraction f_d f_a = 1 - (1 - f_d) * (1 - f_a) ∧
    max f_d f_a ≤ combined_reduction_fraction f_d f_a ∧
    combined_reduction_fraction f_d f_a < 1 ∧
    combined_reduction_fraction f_d 0 = f_d ∧
    combined_reduction_fraction 0 f_a = f_a ∧
    combined_reduction_fraction f_d f_a = combined_reduction_fraction f_a f_d := by
  have key1 : f_d ≤ combined_reduction_fraction f_d f_a := by
    unfold combined_reduction_fraction
    nlinarith [mul_nonneg (show (0 : ℚ) ≤ 1 - f_d by linarith) ha0]
  have key2 : f_a ≤ combined_reduction_fraction f_d f_a := by
    unfold combined_reduction_fraction
    nlinarith [mul_nonneg (show (0 : ℚ) ≤ 1 - f_a by linarith) hd0]
  have key3 : combined_reduction_fraction f_d f_a < 1 := by
    unfold combined_reduction_fraction
    nlinarith [mul_pos (show (0 : ℚ) < 1 - f_d by linarith)
      (show (0 : ℚ) < 1 - f_a by linarith)]
  refine ⟨by unfold combined_reduction_fraction; norm_num, max_le key1 key2,
    key3, ?_, ?_, ?_⟩ <;> unfold combined_reduction_fraction <;> ring

/-- Witness for C1 at `f_d = 1/10`, `f_a = 3/10`. -/
theorem combined_reduction_fraction_spec_witness :
    combined_reduction_fraction (1/10) (3/10) = 1 - (1 - 1/10) * (1 - 3/10) ∧
    max (1/10 : ℚ) (3/10) ≤ combined_reduction_fraction (1/10) (3/10) ∧
    combined_reduction_fraction (1/10) (3/10) < 1 ∧
    combined_reduction_fraction (1/10) 0 = 1/10 ∧
    combined_reduction_fraction 0 (3/10) = 3/10 ∧
    combined_reduction_fraction (1/10) (3/10) =
      combined_reduction_fraction (3/10) (1/10) :=
  combined_reduction_fraction_spec (1/10) (3/10)
    (by norm_num) (by norm_num) (by norm_num) (by norm_num)

/-- C2: for every emission factor `ef > 0` and herd size `n ≥ 1`, the
baseline methane mass in tonnes/year equals `ef * n / 1000` exactly,
and is strictly monotonically increasing in both `ef` and `n`. -/
theorem baseline_tCH4_spec (ef ef2 : ℚ) (n m : ℤ)
    (hef : 0 < ef) (hn : 1 ≤ n) (hef2 : ef < ef2) (hm : n < m) :
    baseline_tCH4 ef n = ef * n / 1000 ∧
    baseline_tCH4 ef n < baseline_tCH4 ef2 n ∧
    baseline_tCH4 ef n < baseline_tCH4 ef m := by
  have hnq : (1 : ℚ) ≤ (n : ℚ) := by exact_mod_cast hn
  have hmq : (n : ℚ) < (m : ℚ) := by exact_mod_cast hm
  refine ⟨by unfold baseline_tCH4; norm_num, ?_, ?_⟩
  · unfold baseline_tCH4
    have h1 : ef * (n : ℚ) < ef2 * (n : ℚ) :=
      mul_lt_mul_of_pos_right hef2 (by linarith)
    have h2 := mul_lt_mul_of_pos_right h1
      (show (0 : ℚ) < (1000.0 : ℚ)⁻¹ by norm_num)
    simpa [div_eq_mul_inv] using h2
  · unfold baseline_tCH4
    have h1 : ef * (n : ℚ) < ef * (m : ℚ) :=
      mul_lt_mul_of_pos_left hmq hef
    have h2 := mul_lt_mul_of_pos_right h1
      (show (0 : ℚ) < (1000.0 : ℚ)⁻¹ by norm_num)
    simpa [div_eq_mul_inv] using h2

/-- Witness for C2 at `ef = 72 < ef2 = 90`, `n = 1 < m = 2`. -/
theorem baseline_tCH4_spec_witness :
    baseline_tCH4 72 1 = 72 * ((1 : ℤ) : ℚ) / 1000 ∧
    baseline_tCH4 72 1 < baseline_tCH4 90 1 ∧
    baseline_tCH4 72 1 < baseline_tCH4 72 2 :=
  baseline_tCH4_spec 72 90 1 2 (by norm_num) (by norm_num)
    (by norm_num) (by norm_num)

/-- C4: the submitted-form pipeline rejects every herd size `n ≤ 0`
with `invalidInput` before any table lookup or computation: the result
is the same error for arbitrary (even unconfigured) keys. -/
theorem app_submit_rejects_nonpositive (n : ℤ) (ct d a : String)
    (hn : n ≤ 0) :
    app_submit n ct d a = Except.error CalcError.invalidInput := by
  unfold app_submit
  rw [if_pos hn]

/-- Witness for C4 at herd size 0 (with keys absent from every table,
showing the rejection happens before any lookup or computation). -/
theorem app_submit_rejects_nonpositive_witness :
    app_submit 0 "no-such-type" "no-such-diet" "no-such-additive" =
      Except.error CalcError.invalidInput :=
  app_submit_rejects_nonpositive 0 "no-such-type" "no-such-diet"
    "no-such-additive" (by norm_num)

/-- C7: for a herd of 100 dairy cattle (EF 72) on a conventional diet:
no additive gives baseline methane 7.2 t/yr and baseline CO2e
201.6 t/yr; additive "seaweed" gives combined fraction 0.30, reduced
methane 2.16 t/yr, avoided CO2e 60.48 t/yr, cars removed 1512/115
(within 0.01 of 13.15), and trees 2880. -/
theorem scenario_dairy100 :
    compute_results 100 "dairy" "conventional" "none" =
      Except.ok
        { ef := 72, f_diet := 0, f_add := 0, f_total := 0,
          baseline_tCH4 := 7.2, baseline_tCO2e := 201.6,
          baseline_cars := 1008/23, baseline_trees := 9600,
          reduced_tCH4 := 0, avoided_tCO2e := 0,
          cars_removed := 0, trees_equivalent := 0 } ∧
    compute_results 100 "dairy" "conventional" "seaweed" =
      Except.ok
        { ef := 72, f_diet := 0, f_add := 0.30, f_total := 0.30,
          baseline_tCH4 := 7.2, baseline_tCO2e := 201.6,
          baseline_cars := 1008/23, baseline_trees := 9600,
          reduced_tCH4 := 2.16, avoided_tCO2e := 60.48,
          cars_removed := 1512/115, trees_equivalent := 2880 } ∧
    |(1512/115 : ℚ) - 13.15| < 0.01 := by
  refine ⟨?_, ?_, ?_⟩
  · unfold compute_results
    rw [show EMISSION_FACTORS_KG_PER_HEAD_YR.lookup "dairy" = some 72.0 from rfl,
        show DIET_REDUCTION.lookup "conventional" = some 0.00 from rfl,
        show ADDITIVE_REDUCTION.lookup "none" = some 0.00 from rfl]
    norm_num [baseline_tCH4, combined_reduction_fraction, GWP_CH4,
      CAR_T_CO2E_PER_YEAR, TREE_T_CO2E_PER_YEAR, Results.mk.injEq]
  · unfold compute_results
    rw [show EMISSION_FACTORS_KG_PER_HEAD_YR.lookup "dairy" = some 72.0 from rfl,
        show DIET_REDUCTION.lookup "conventional" = some 0.00 from rfl,
        show ADDITIVE_REDUCTION.lookup "seaweed" = some 0.30 from rfl]
    norm_num [baseline_tCH4, combined_reduction_fraction, GWP_CH4,
      CAR_T_CO2E_PER_YEAR, TREE_T_CO2E_PER_YEAR, Results.mk.injEq]
  · rw [abs_lt]
    constructor <;> norm_num

/-- C5: a category, diet, or additive key absent from its
configuration table makes `compute_results` fail with
`configurationError`; a category or diet key absent from its table
makes `compute_what_if_rows` fail with `configurationError`. -/
theorem missing_key_configuration_error (n : ℤ) (ct d a : String) :
    ((EMISSION_FACTORS_KG_PER_HEAD_YR.lookup ct = none ∨
      DIET_REDUCTION.lookup d = none ∨
      ADDITIVE_REDUCTION.lookup a = none) →
      compute_results n ct d a = Except.error CalcError.configurationError) ∧
    ((EMISSION_FACTORS_KG_PER_HEAD_YR.lookup ct = none ∨
      DIET_REDUCTION.lookup d = none) →
      compute_what_if_rows n ct d =
        Except.error CalcError.configurationError) := by
  constructor
  · intro h
    unfold compute_results
    cases hef : EMISSION_FACTORS_KG_PER_HEAD_YR.lookup ct with
    | none => rfl
    | some ef =>
      cases hd : DIET_REDUCTION.lookup d with
      | none => rfl
      | some fd =>
        cases ha : ADDITIVE_REDUCTION.lookup a with
        | none => rfl
        | some fa =>
          rcases h with h | h | h
          · rw [hef] at h
            exact Option.noConfusion h
          · rw [hd] at h
            exact Option.noConfusion h
          · rw [ha] at h
            exact Option.noConfusion h
  · intro h
    unfold compute_what_if_rows compute_what_if_rows_with
    cases hef : EMISSION_FACTORS_KG_PER_HEAD_YR.lookup ct with
    | none => rfl
    | some ef =>
      cases hd : DIET_REDUCTION.lookup d with
      | none => rfl
      | some fd =>
        rcases h with h | h
        · rw [hef] at h
          exact Option.noConfusion h
        · rw [hd] at h
          exact Option.noConfusion h

/-- Witness for C5 at the unconfigured category key "unknown". -/
theorem missing_key_configuration_error_witness :
    compute_results 1 "unknown" "conventional" "none" =
      Except.error CalcError.configurationError ∧
    compute_what_if_rows 1 "unknown" "conventional" =
      Except.error CalcError.configurationError :=
  ⟨(missing_key_configuration_error 1 "unknown" "conventional" "none").1
      (Or.inl rfl),
   (missing_key_configuration_error 1 "unknown" "conventional" "none").2
      (Or.inl rfl)⟩

/-- C9: every result record `compute_results` returns satisfies the
internal consistency equations `avoided_tCO2e = baseline_tCO2e *
f_total` and `reduced_tCH4 = baseline_tCH4 * f_total`. -/
theorem results_internal_consistency (n : ℤ) (ct d a : String) (r : Results)
    (h : compute_results n ct d a = Except.ok r) :
    r.avoided_tCO2e = r.baseline_tCO2e * r.f_total ∧
    r.reduced_tCH4 = r.baseline_tCH4 * r.f_total := by
  unfold compute_results at h
  cases hef : EMISSION_FACTORS_KG_PER_HEAD_YR.lookup ct with
  | none => rw [hef] at h; simp at h
  | some ef =>
    rw [hef] at h
    cases hd : DIET_REDUCTION.lookup d with
    | none => rw [hd] at h; simp at h
    | some fd =>
      rw [hd] at h
      cases ha : ADDITIVE_REDUCTION.lookup a with
      | none => rw [ha] at h; simp at h
      | some fa =>
        rw [ha] at h
        simp only [Except.ok.injEq] at h
        subst h
        constructor
        · simp [GWP_CH4]
          ring
        · simp [GWP_CH4]

/-- Witness for C9 from the concrete seaweed scenario record. -/
theorem results_internal_consistency_witness :
    (Results.avoided_tCO2e
        { ef := 72, f_diet := 0, f_add := 0.30, f_total := 0.30,
          baseline_tCH4 := 7.2, baseline_tCO2e := 201.6,
          baseline_cars := 1008/23, baseline_trees := 9600,
          reduced_tCH4 := 2.16, avoided_tCO2e := 60.48,
          cars_removed := 1512/115, trees_equivalent := 2880 } =
      201.6 * 0.30) ∧
    (2.16 : ℚ) = 7.2 * 0.30 :=
  results_internal_consistency 100 "dairy" "conventional" "seaweed"
    { ef := 72, f_diet := 0, f_add := 0.30, f_total := 0.30,
      baseline_tCH4 := 7.2, baseline_tCO2e := 201.6,
      baseline_cars := 1008/23, baseline_trees := 9600,
      reduced_tCH4 := 2.16, avoided_tCO2e := 60.48,
      cars_removed := 1512/115, trees_equivalent := 2880 }
    (by unfold compute_results
        rw [show EMISSION_FACTORS_KG_PER_HEAD_YR.lookup "dairy" = some 72.0 from rfl,
            show DIET_REDUCTION.lookup "conventional" = some 0.00 from rfl,
            show ADDITIVE_REDUCTION.lookup "seaweed" = some 0.30 from rfl]
        norm_num [baseline_tCH4, combined_reduction_fraction, GWP_CH4,
          CAR_T_CO2E_PER_YEAR, TREE_T_CO2E_PER_YEAR, Results.mk.injEq])

/-- C10: `compute_results` at herd size 0 raises no error and returns
a record whose mass and equivalence outputs are all exactly 0; the
herd-size rejection happens only in the UI-boundary pipeline. -/
theorem compute_results_zero_herd (ct d a : String) (ef fd fa : ℚ)
    (hef : EMISSION_FACTORS_KG_PER_HEAD_YR.lookup ct = some ef)
    (hd : DIET_REDUCTION.lookup d = some fd)
    (ha : ADDITIVE_REDUCTION.lookup a = some fa) :
    (∃ r : Results, compute_results 0 ct d a = Except.ok r ∧
      r.baseline_tCH4 = 0 ∧ r.baseline_tCO2e = 0 ∧ r.reduced_tCH4 = 0 ∧
      r.avoided_tCO2e = 0 ∧ r.cars_removed = 0 ∧
      r.trees_equivalent = 0) ∧
    app_submit 0 ct d a = Except.error CalcError.invalidInput := by
  constructor
  · unfold compute_results
    rw [hef, hd, ha]
    refine ⟨_, rfl, ?_, ?_, ?_, ?_, ?_, ?_⟩ <;>
      norm_num [baseline_tCH4, combined_reduction_fraction, GWP_CH4,
        CAR_T_CO2E_PER_YEAR, TREE_T_CO2E_PER_YEAR]
  · simp [app_submit]

/-- Witness for C10 at (dairy, conventional, seaweed). -/
theorem compute_results_zero_herd_witness :
    (∃ r : Results, compute_results 0 "dairy" "conventional" "seaweed" =
        Except.ok r ∧
      r.baseline_tCH4 = 0 ∧ r.baseline_tCO2e = 0 ∧ r.reduced_tCH4 = 0 ∧
      r.avoided_tCO2e = 0 ∧ r.cars_removed = 0 ∧
      r.trees_equivalent = 0) ∧
    app_submit 0 "dairy" "conventional" "seaweed" =
      Except.error CalcError.invalidInput :=
  compute_results_zero_herd "dairy" "conventional" "seaweed"
    72.0 0.00 0.30 rfl rfl rfl

/-- C8: with the additive table reduced to only the "none" entry, the
what-if computation returns an empty list, not an error. -/
theorem whatif_none_only_table_empty (n : ℤ) (ct d : String) (ef fd : ℚ)
    (hef : EMISSION_FACTORS_KG_PER_HEAD_YR.lookup ct = some ef)
    (hd : DIET_REDUCTION.lookup d = some fd) :
    compute_what_if_rows_with [("none", 0.00)] n ct d = Except.ok [] := by
  unfold compute_what_if_rows_with
  rw [hef, hd]
  rfl

/-- Witness for C8 at (dairy, conventional), herd size 7. -/
theorem whatif_none_only_table_empty_witness :
    compute_what_if_rows_with [("none", 0.00)] 7 "dairy" "conventional" =
      Except.ok [] :=
  whatif_none_only_table_empty 7 "dairy" "conventional" 72.0 0.00 rfl rfl

/-- Helper: avoided CO2e of a what-if row is strictly increasing in
the additive fraction once the baseline is positive and the diet
fraction is below 1. -/
theorem whatIfRow_avoided_lt (base f_diet fa fb : ℚ) (sa sb : String)
    (hbase : 0 < base) (hfd : f_diet < 1) (hab : fa < fb) :
    (mkWhatIfRow base f_diet sa fa).tCO2e_avoided <
      (mkWhatIfRow base f_diet sb fb).tCO2e_avoided := by
  simp only [mkWhatIfRow, combined_reduction_fraction, GWP_CH4]
  nlinarith [mul_pos (mul_pos hbase (show (0 : ℚ) < 1 - f_diet by linarith))
    (show (0 : ℚ) < fb - fa by linarith)]

/-- Helper: inserting into the empty list. -/
theorem insertDescByAvoided_nil (x : WhatIfRow) :
    insertDescByAvoided x [] = [x] := rfl

/-- Helper: the inserted row moves past a head with strictly larger
avoided mass. -/
theorem insertDescByAvoided_cons_lt (x y : WhatIfRow) (ys : List WhatIfRow)
    (h : x.tCO2e_avoided < y.tCO2e_avoided) :
    insertDescByAvoided x (y :: ys) = y :: insertDescByAvoided x ys := by
  simp only [insertDescByAvoided]
  rw [if_pos h]

/-- Helper: the inserted row stays before a head whose avoided mass is
not strictly larger (this is the stability tie-break). -/
theorem insertDescByAvoided_cons_ge (x y : WhatIfRow) (ys : List WhatIfRow)
    (h : ¬ x.tCO2e_avoided < y.tCO2e_avoided) :
    insertDescByAvoided x (y :: ys) = x :: y :: ys := by
  simp only [insertDescByAvoided]
  rw [if_neg h]

/-- Helper: on the configured additive table, the sorted what-if list
is always 3-NOP, seaweed, oils — in that order — whenever the baseline
is positive and the diet fraction is below 1. -/
theorem whatif_rows_sorted (base f_diet : ℚ)
    (hbase : 0 < base) (hfd : f_diet < 1) :
    sortByAvoidedDesc ((ADDITIVE_REDUCTION.filter
        (fun p => p.1 ≠ "none")).map
      (fun p => mkWhatIfRow base f_diet p.1 p.2)) =
    [mkWhatIfRow base f_diet "3-NOP" 0.31,
     mkWhatIfRow base f_diet "seaweed" 0.30,
     mkWhatIfRow base f_diet "oils" 0.10] := by
  have hlist : (ADDITIVE_REDUCTION.filter (fun p => p.1 ≠ "none")).map
      (fun p => mkWhatIfRow base f_diet p.1 p.2) =
      [mkWhatIfRow base f_diet "seaweed" 0.30,
       mkWhatIfRow base f_diet "3-NOP" 0.31,
       mkWhatIfRow base f_diet "oils" 0.10] := rfl
  have h1 := whatIfRow_avoided_lt base f_diet 0.10 0.31 "oils" "3-NOP"
    hbase hfd (by norm_num)
  have h2 := whatIfRow_avoided_lt base f_diet 0.30 0.31 "seaweed" "3-NOP"
    hbase hfd (by norm_num)
  have h3 := whatIfRow_avoided_lt base f_diet 0.10 0.30 "oils" "seaweed"
    hbase hfd (by norm_num)
  rw [hlist]
  unfold sortByAvoidedDesc
  simp only [List.foldr]
  rw [insertDescByAvoided_nil,
      insertDescByAvoided_cons_ge _ _ _ (lt_asymm h1),
      insertDescByAvoided_cons_lt _ _ _ h2,
      insertDescByAvoided_cons_ge _ _ _ (lt_asymm h3)]

/-- Helper: a present category key resolves to one of the three
configured emission factors. -/
theorem ef_lookup_cases (ct : String)
    (h : (EMISSION_FACTORS_KG_PER_HEAD_YR.lookup ct).isSome) :
    EMISSION_FACTORS_KG_PER_HEAD_YR.lookup ct = some 72.0 ∨
    EMISSION_FACTORS_KG_PER_HEAD_YR.lookup ct = some 60.0 ∨
    EMISSION_FACTORS_KG_PER_HEAD_YR.lookup ct = some 90.0 := by
  unfold EMISSION_FACTORS_KG_PER_HEAD_YR at h ⊢
  simp only [List.lookup] at h ⊢
  cases h1 : (ct == "dairy") <;> cases h2 : (ct == "beef") <;>
    cases h3 : (ct == "buffalo") <;> simp_all

/-- Helper: a present diet key resolves to one of the three configured
diet fractions. -/
theorem diet_lookup_cases (d : String)
    (h : (DIET_REDUCTION.lookup d).isSome) :
    DIET_REDUCTION.lookup d = some 0.00 ∨
    DIET_REDUCTION.lookup d = some 0.10 ∨
    DIET_REDUCTION.lookup d = some 0.15 := by
  unfold DIET_REDUCTION at h ⊢
  simp only [List.lookup] at h ⊢
  cases h1 : (d == "conventional") <;> cases h2 : (d == "improved") <;>
    cases h3 : (d == "high-quality") <;> simp_all

/-- C6: for every herd size ≥ 1 and configured category and diet keys,
the what-if list has no row for "none", is sorted in descending order
of avoided CO2e, and its first row is 3-NOP, the additive with the
highest reduction fraction. -/
theorem what_if_ranking_spec (n : ℤ) (ct d : String) (hn : 1 ≤ n)
    (hct : (EMISSION_FACTORS_KG_PER_HEAD_YR.lookup ct).isSome)
    (hd : (DIET_REDUCTION.lookup d).isSome) :
    ∃ rows, compute_what_if_rows n ct d = Except.ok rows ∧
      (∀ r ∈ rows, r.additive ≠ "none") ∧
      rows.Chain' (fun r s => s.tCO2e_avoided ≤ r.tCO2e_avoided) ∧
      rows.head?.map WhatIfRow.additive = some "3-NOP" := by
  obtain ⟨ef, hef, hefpos⟩ : ∃ ef,
      EMISSION_FACTORS_KG_PER_HEAD_YR.lookup ct = some ef ∧ 0 < ef := by
    rcases ef_lookup_cases ct hct with h | h | h
    · exact ⟨_, h, by norm_num⟩
    · exact ⟨_, h, by norm_num⟩
    · exact ⟨_, h, by norm_num⟩
  obtain ⟨fd, hfd, hfdlt⟩ : ∃ fd,
      DIET_REDUCTION.lookup d = some fd ∧ fd < 1 := by
    rcases diet_lookup_cases d hd with h | h | h
    · exact ⟨_, h, by norm_num⟩
    · exact ⟨_, h, by norm_num⟩
    · exact ⟨_, h, by norm_num⟩
  have hbase : 0 < baseline_tCH4 ef n := by
    unfold baseline_tCH4
    have hnq : (1 : ℚ) ≤ (n : ℚ) := by exact_mod_cast hn
    have : 0 < ef * (n : ℚ) := by nlinarith
    positivity
  have hrows : compute_what_if_rows n ct d = Except.ok
      [mkWhatIfRow (baseline_tCH4 ef n) fd "3-NOP" 0.31,
       mkWhatIfRow (baseline_tCH4 ef n) fd "seaweed" 0.30,
       mkWhatIfRow (baseline_tCH4 ef n) fd "oils" 0.10] := by
    rw [← whatif_rows_sorted (baseline_tCH4 ef n) fd hbase hfdlt]
    unfold compute_what_if_rows compute_what_if_rows_with
    rw [hef, hfd]
  refine ⟨_, hrows, ?_, ?_, ?_⟩
  · intro r hr
    simp only [List.mem_cons, List.not_mem_nil, or_false] at hr
    rcases hr with rfl | rfl | rfl <;> simp [mkWhatIfRow]
  · simp only [List.chain'_cons, List.chain'_singleton, and_true]
    exact ⟨le_of_lt (whatIfRow_avoided_lt (baseline_tCH4 ef n) fd
        0.30 0.31 "seaweed" "3-NOP" hbase hfdlt (by norm_num)),
      le_of_lt (whatIfRow_avoided_lt (baseline_tCH4 ef n) fd
        0.10 0.30 "oils" "seaweed" hbase hfdlt (by norm_num))⟩
  · rfl

/-- Witness for C6 at herd 100, dairy, conventional. -/
theorem what_if_ranking_spec_witness :
    ∃ rows, compute_what_if_rows 100 "dairy" "conventional" =
        Except.ok rows ∧
      (∀ r ∈ rows, r.additive ≠ "none") ∧
      rows.Chain' (fun r s => s.tCO2e_avoided ≤ r.tCO2e_avoided) ∧
      rows.head?.map WhatIfRow.additive = some "3-NOP" :=
  what_if_ranking_spec 100 "dairy" "conventional" (by norm_num) rfl rfl

/-- C3 (spec-modelled): when an average animal weight is supplied and
positive, the emission factor is exactly the five-step Tier-2
energy-balance value, and the resolver's output does not depend on the
animal category — the dynamic factor supersedes the static table. -/
theorem tier2_supersedes_static (w intake_frac ym_pct : ℚ) (ct ct2 : String)
    (hw : 0 < w) :
    resolve_emission_factor (some w) intake_frac ym_pct ct =
      Except.ok (w * intake_frac * 18.45 * (ym_pct / 100) / 55.65 * 365) ∧
    resolve_emission_factor (some w) intake_frac ym_pct ct =
      resolve_emission_factor (some w) intake_frac ym_pct ct2 := by
  have hres : ∀ c : String, resolve_emission_factor (some w) intake_frac
      ym_pct c = Except.ok (tier2_emission_factor w intake_frac ym_pct) := by
    intro c
    show (if 0 < w then
        Except.ok (tier2_emission_factor w intake_frac ym_pct)
      else dictGet EMISSION_FACTORS_KG_PER_HEAD_YR c) = _
    exact if_pos hw
  refine ⟨?_, ?_⟩
  · rw [hres ct]
    rfl
  · rw [hres ct, hres ct2]

/-- Witness for C3 from the spec's scenario 4: a 400 kg animal with
intake fraction 0.022 and methane-conversion 6.5%. -/
theorem tier2_supersedes_static_witness :
    resolve_emission_factor (some 400) 0.022 6.5 "dairy" =
      Except.ok (400 * 0.022 * 18.45 * (6.5 / 100) / 55.65 * 365) ∧
    resolve_emission_factor (some 400) 0.022 6.5 "dairy" =
      resolve_emission_factor (some 400) 0.022 6.5 "beef" :=
  tier2_supersedes_static 400 0.022 6.5 "dairy" "beef" (by norm_num)

end CattleMethane
